import Mathlib

/-!
Shallow embedding of `netlify/functions/check-bundle-stock.js` (bundle stock
checker for a two-item product bundle) and proofs about it.

Modelling conventions:
* The Shopify Admin API is an oracle (`Shop`): each HTTP endpoint is a field
  mapping the request parameters to either a successful parsed body (`.ok`)
  or an error message (`.error`, covering both network failures and non-ok
  HTTP statuses, which the source turns into thrown `Error`s).
* Every network call the code issues is recorded in a trace of `Request`
  values (method and URL, exactly as built at the call site; every `fetch`
  in the source passes no `method` option, hence `GET`).
* JS objects used as string-keyed dictionaries (`properties`, the groups
  built by `groupPropertiesByProduct`) are association lists in insertion
  order with overwrite-in-place on duplicate keys, matching the
  `Object.entries` enumeration order for non-integer-like keys (all keys
  here contain `: ` or spaces, so none is integer-like).
* JS `null`/`undefined`-able fields are `Option`; JS falsiness tests on
  strings (`if (profile && ...)`) are explicit nonemptiness tests.
* Numbers that the code only adds and compares (`available`, quantities)
  are `Int`/`Nat`; the source never does float-specific arithmetic on them.
* `console.log` calls and the `debug` sub-objects of results are omitted:
  they do not feed back into any decision.
-/

/-- HTTP method of a request issued to the platform. Every `fetch` in the
source omits the `method` option, so every issued request is a `GET`. -/
inductive Method where
  | GET
  | POST
  | PUT
  | DELETE
deriving DecidableEq, Repr

/-- One network request issued by the function, as built at a call site. -/
structure Request where
  method : Method
  url : String
deriving DecidableEq, Repr

/-- A product variant as returned by the products endpoint; the fields the
code reads (`id`, `sku`, `inventory_management`, `inventory_item_id`,
`inventory_policy`). `inventory_management` and `inventory_policy` can be
`null` in Shopify, hence `Option`. -/
structure Variant where
  id : Nat
  sku : String
  inventory_management : Option String
  inventory_item_id : Nat
  inventory_policy : Option String
deriving DecidableEq, Repr

/-- A product from the products endpoint (`fields=id,title,variants`). -/
structure Product where
  id : Nat
  title : String
  variants : List Variant
deriving DecidableEq, Repr

/-- One page of the paginated products endpoint. `nextPageInfo` is the
`page_info` cursor the code extracts from the `Link` response header when it
contains a `rel="next"` entry (`none` when there is no such entry). -/
structure ProductsPage where
  products : List Product
  nextPageInfo : Option String
deriving DecidableEq, Repr

/-- A location from the locations endpoint; the fields the code reads. -/
structure Location where
  id : Nat
  name : String
  active : Bool
  legacy : Bool
deriving DecidableEq, Repr

/-- One record of the inventory-levels endpoint. `available` can be missing
or `null` (the code guards with `level.available || 0`). -/
structure InventoryLevel where
  location_id : Nat
  available : Option Int
deriving DecidableEq, Repr

/-- Oracle for the external commerce platform: the parsed response of each
endpoint as a function of the request parameters the code varies. -/
structure Shop where
  /-- `GET /admin/api/2024-01/products.json?...&page_info=<cursor>`:
  response as a function of the optional `page_info` cursor. -/
  pages : Option String → Except String ProductsPage
  /-- `GET /admin/api/2024-01/locations.json`. -/
  locationsResp : Except String (List Location)
  /-- `GET /admin/api/2024-01/inventory_levels.json?inventory_item_ids=<id>&location_ids=<ids>`:
  response as a function of the inventory item id and the joined location
  id list. -/
  inventoryLevelsResp : Nat → String → Except String (List InventoryLevel)

/-- A line item produced by `parsePropertiesToSKUs`: the object pushed at
`lineItems.push({ sku, quantity: 1, properties })`. -/
structure LineItem where
  sku : String
  quantity : Nat
  properties : List (String × String)
deriving DecidableEq, Repr

/-- The `availableQuantity` field of a stock result: a number, or the
string `'unlimited'` for untracked variants. -/
inductive AvailQty where
  | qty (n : Int)
  | unlimited
deriving DecidableEq, Repr

/-- The per-item result object pushed into `results` by
`checkInventoryLevels` (decision-relevant fields; `debug` omitted). -/
structure StockResult where
  sku : String
  quantity : Nat
  available : Bool
  availableQuantity : AvailQty
  error : Option String
deriving DecidableEq, Repr

/-- Result of `getVariantBySKU` on the non-throwing path: either the first
matching variant together with `searchedProducts`, or a not-found outcome
with `searchedProducts`. -/
inductive VariantResult where
  | found (variant : Variant) (searchedProducts : Nat)
  | notFound (searchedProducts : Nat)
deriving DecidableEq, Repr

/-- Result of `getInventoryLevel` (which catches all its own errors):
`success`, optional `error` message, and `totalAvailable` (0 on failure).
The per-location breakdown is debug-only and omitted. -/
structure InvResult where
  success : Bool
  error : Option String
  totalAvailable : Int
deriving DecidableEq, Repr

/-- Body of the handler response, one constructor per `return` shape of the
handler after line-item validation (decision-relevant fields). -/
inductive HandlerBody where
  | err (msg : String)
  | allInStock (lineItems : List LineItem) (stockResults : List StockResult)
  | someOutOfStock (outOfStockItems : List StockResult)
      (stockResults : List StockResult) (lineItems : List LineItem)
deriving DecidableEq, Repr

/-- The handler response: status code and body. -/
structure HandlerResponse where
  statusCode : Nat
  body : HandlerBody
deriving DecidableEq, Repr

/-- The `available` field of the serialized handler body: `true` in the
all-in-stock shape, `false` in the out-of-stock shape, absent on errors. -/
def HandlerBody.availableField : HandlerBody → Option Bool
  | .err _ => none
  | .allInStock _ _ => some true
  | .someOutOfStock _ _ _ => some false

/-- The `outOfStockItems` field of the serialized handler body (absent in
the other shapes). -/
def HandlerBody.outOfStockField : HandlerBody → Option (List StockResult)
  | .err _ => none
  | .allInStock _ _ => none
  | .someOutOfStock out _ _ => some out
/-- Variant-key to SKU table for "Max Comfort Insoles" in PRODUCT_SKU_MAPPING. -/
def maxComfortInsolesMapping : List (String × String) := [
  ("Max Cushion|Low|Men\x27s 5-5.5 | Women\x27s 6-6.5", "CMXIN1M5"),
  ("Max Cushion|Low|Men\x27s 6-6.5 | Women\x27s 7-7.5", "CMXIN1M6"),
  ("Max Cushion|Low|Men\x27s 7-7.5 | Women\x27s 8-8.5", "CMXIN1M7"),
  ("Max Cushion|Low|Men\x27s 8-8.5 | Women\x27s 9-9.5", "CMXIN1M8"),
  ("Max Cushion|Low|Men\x27s 9-9.5 | Women\x27s 10-10.5", "CMXIN1M9"),
  ("Max Cushion|Low|Men\x27s 10-10.5 | Women\x27s 11-11.5", "CMXIN1M10"),
  ("Max Cushion|Low|Men\x27s 11-11.5 | Women\x27s 12-12.5", "CMXIN1M11"),
  ("Max Cushion|Low|Men\x27s 12-12.5 | Women\x27s 13-13.5", "CMXIN1M12"),
  ("Max Cushion|Low|Men\x27s 13-13.5", "CMXIN1M13"),
  ("Max Cushion|Low|Men\x27s 14-14.5", "CMXIN1M14"),
  ("Max Cushion|Low|Men\x27s 15-15.5", "CMXIN1M15"),
  ("Max Cushion|Low|Men\x27s 16-16.5", "CMXIN1M16"),
  ("Max Cushion|Low|Men\x27s 17-17.5", "CMXIN1M17"),
  ("Max Cushion|Medium|Men\x27s 5-5.5 | Women\x27s 6-6.5", "CASIN1M5"),
  ("Max Cushion|Medium|Men\x27s 6-6.5 | Women\x27s 7-7.5", "CASIN1M6"),
  ("Max Cushion|Medium|Men\x27s 7-7.5 | Women\x27s 8-8.5", "CASIN1M7"),
  ("Max Cushion|Medium|Men\x27s 8-8.5 | Women\x27s 9-9.5", "CASIN1M8"),
  ("Max Cushion|Medium|Men\x27s 9-9.5 | Women\x27s 10-10.5", "CASIN1M9"),
  ("Max Cushion|Medium|Men\x27s 10-10.5 | Women\x27s 11-11.5", "CASIN1M10"),
  ("Max Cushion|Medium|Men\x27s 11-11.5 | Women\x27s 12-12.5", "CASIN1M11"),
  ("Max Cushion|Medium|Men\x27s 12-12.5 | Women\x27s 13-13.5", "CASIN1M12"),
  ("Max Cushion|Medium|Men\x27s 13-13.5", "CASIN1M13"),
  ("Max Cushion|Medium|Men\x27s 14-14.5", "CASIN1M14"),
  ("Max Cushion|Medium|Men\x27s 15-15.5", "CASIN1M15"),
  ("Max Cushion|High|Men\x27s 5-5.5 | Women\x27s 6-6.5", "MXHIN1M5"),
  ("Max Cushion|High|Men\x27s 6-6.5 | Women\x27s 7-7.5", "MXHIN1M6"),
  ("Max Cushion|High|Men\x27s 7-7.5 | Women\x27s 8-8.5", "MXHIN1M7"),
  ("Max Cushion|High|Men\x27s 8-8.5 | Women\x27s 9-9.5", "MXHIN1M8"),
  ("Max Cushion|High|Men\x27s 9-9.5 | Women\x27s 10-10.5", "MXHIN1M9"),
  ("Max Cushion|High|Men\x27s 10-10.5 | Women\x27s 11-11.5", "MXHIN1M10"),
  ("Max Cushion|High|Men\x27s 11-11.5 | Women\x27s 12-12.5", "MXHIN1M11"),
  ("Max Cushion|High|Men\x27s 12-12.5 | Women\x27s 13-13.5", "MXHIN1M12"),
  ("Max Cushion|High|Men\x27s 13-13.5", "MXHIN1M13"),
  ("Max Cushion|High|Men\x27s 14-14.5", "MXHIN1M14"),
  ("Max Cushion|High|Men\x27s 15-15.5", "MXHIN1M15"),
  ("Low Profile|Low|Men\x27s 5-5.5 | Women\x27s 6-6.5", "CLPIN1M5"),
  ("Low Profile|Low|Men\x27s 6-6.5 | Women\x27s 7-7.5", "CLPIN1M6"),
  ("Low Profile|Low|Men\x27s 7-7.5 | Women\x27s 8-8.5", "CLPIN1M7"),
  ("Low Profile|Low|Men\x27s 8-8.5 | Women\x27s 9-9.5", "CLPIN1M8"),
  ("Low Profile|Low|Men\x27s 9-9.5 | Women\x27s 10-10.5", "CLPIN1M9"),
  ("Low Profile|Low|Men\x27s 10-10.5 | Women\x27s 11-11.5", "CLPIN1M10"),
  ("Low Profile|Low|Men\x27s 11-11.5 | Women\x27s 12-12.5", "CLPIN1M11"),
  ("Low Profile|Low|Men\x27s 12-12.5 | Women\x27s 13-13.5", "CLPIN1M12"),
  ("Low Profile|Low|Men\x27s 13-13.5", "CLPIN1M13"),
  ("Low Profile|Low|Men\x27s 14-14.5", "CLPIN1M14"),
  ("Low Profile|Low|Men\x27s 15-15.5", "CLPIN1M15"),
  ("Low Profile|Medium|Men\x27s 5-5.5 | Women\x27s 6-6.5", "LPMIN1M5"),
  ("Low Profile|Medium|Men\x27s 6-6.5 | Women\x27s 7-7.5", "LPMIN1M6"),
  ("Low Profile|Medium|Men\x27s 7-7.5 | Women\x27s 8-8.5", "LPMIN1M7"),
  ("Low Profile|Medium|Men\x27s 8-8.5 | Women\x27s 9-9.5", "LPMIN1M8"),
  ("Low Profile|Medium|Men\x27s 9-9.5 | Women\x27s 10-10.5", "LPMIN1M9"),
  ("Low Profile|Medium|Men\x27s 10-10.5 | Women\x27s 11-11.5", "LPMIN1M10"),
  ("Low Profile|Medium|Men\x27s 11-11.5 | Women\x27s 12-12.5", "LPMIN1M11"),
  ("Low Profile|Medium|Men\x27s 12-12.5 | Women\x27s 13-13.5", "LPMIN1M12"),
  ("Low Profile|Medium|Men\x27s 13-13.5", "LPMIN1M13"),
  ("Low Profile|Medium|Men\x27s 14-14.5", "LPMIN1M14"),
  ("Low Profile|Medium|Men\x27s 15-15.5", "LPMIN1M15"),
  ("Low Profile|High|Men\x27s 5-5.5 | Women\x27s 6-6.5", "LPHIN1M5"),
  ("Low Profile|High|Men\x27s 6-6.5 | Women\x27s 7-7.5", "LPHIN1M6"),
  ("Low Profile|High|Men\x27s 7-7.5 | Women\x27s 8-8.5", "LPHIN1M7"),
  ("Low Profile|High|Men\x27s 8-8.5 | Women\x27s 9-9.5", "LPHIN1M8"),
  ("Low Profile|High|Men\x27s 9-9.5 | Women\x27s 10-10.5", "LPHIN1M9"),
  ("Low Profile|High|Men\x27s 10-10.5 | Women\x27s 11-11.5", "LPHIN1M10"),
  ("Low Profile|High|Men\x27s 11-11.5 | Women\x27s 12-12.5", "LPHIN1M11"),
  ("Low Profile|High|Men\x27s 12-12.5 | Women\x27s 13-13.5", "LPHIN1M12"),
  ("Low Profile|High|Men\x27s 13-13.5", "LPHIN1M13"),
  ("Low Profile|High|Men\x27s 14-14.5", "LPHIN1M14"),
  ("Low Profile|High|Men\x27s 15-15.5", "LPHIN1M15")
]

/-- Variant-key to SKU table for "NonSlip 'FoamLock' Performance Insoles" in PRODUCT_SKU_MAPPING. -/
def foamLockInsolesMapping : List (String × String) := [
  ("Max Cushion|Low|Men\x27s 5-5.5 | Women\x27s 6-6.5", "KMXIN1M5"),
  ("Max Cushion|Low|Men\x27s 6-6.5 | Women\x27s 7-7.5", "KMXIN1M6"),
  ("Max Cushion|Low|Men\x27s 7-7.5 | Women\x27s 8-8.5", "KMXIN1M7"),
  ("Max Cushion|Low|Men\x27s 8-8.5 | Women\x27s 9-9.5", "KMXIN1M8"),
  ("Max Cushion|Low|Men\x27s 9-9.5 | Women\x27s 10-10.5", "KMXIN1M9"),
  ("Max Cushion|Low|Men\x27s 10-10.5 | Women\x27s 11-11.5", "KMXIN1M10"),
  ("Max Cushion|Low|Men\x27s 11-11.5 | Women\x27s 12-12.5", "KMXIN1M11"),
  ("Max Cushion|Low|Men\x27s 12-12.5 | Women\x27s 13-13.5", "KMXIN1M12"),
  ("Max Cushion|Low|Men\x27s 13-13.5", "KMXIN1M13"),
  ("Max Cushion|Low|Men\x27s 14-14.5", "KMXIN1M14"),
  ("Max Cushion|Low|Men\x27s 15-15.5", "KMXIN1M15"),
  ("Max Cushion|Low|Men\x27s 16-16.5", "KMXIN1M16"),
  ("Max Cushion|Low|Men\x27s 17-17.5", "KMXIN1M17"),
  ("Max Cushion|Medium|Men\x27s 5-5.5 | Women\x27s 6-6.5", "KASIN1M5"),
  ("Max Cushion|Medium|Men\x27s 6-6.5 | Women\x27s 7-7.5", "KASIN1M6"),
  ("Max Cushion|Medium|Men\x27s 7-7.5 | Women\x27s 8-8.5", "KASIN1M7"),
  ("Max Cushion|Medium|Men\x27s 8-8.5 | Women\x27s 9-9.5", "KASIN1M8"),
  ("Max Cushion|Medium|Men\x27s 9-9.5 | Women\x27s 10-10.5", "KASIN1M9"),
  ("Max Cushion|Medium|Men\x27s 10-10.5 | Women\x27s 11-11.5", "KASIN1M10"),
  ("Max Cushion|Medium|Men\x27s 11-11.5 | Women\x27s 12-12.5", "KASIN1M11"),
  ("Max Cushion|Medium|Men\x27s 12-12.5 | Women\x27s 13-13.5", "KASIN1M12"),
  ("Max Cushion|Medium|Men\x27s 13-13.5", "KASIN1M13"),
  ("Max Cushion|Medium|Men\x27s 14-14.5", "KASIN1M14"),
  ("Max Cushion|Medium|Men\x27s 15-15.5", "KASIN1M15"),
  ("Max Cushion|High|Men\x27s 5-5.5 | Women\x27s 6-6.5", "KMXHIN1M5"),
  ("Max Cushion|High|Men\x27s 6-6.5 | Women\x27s 7-7.5", "KMXHIN1M6"),
  ("Max Cushion|High|Men\x27s 7-7.5 | Women\x27s 8-8.5", "KMXHIN1M7"),
  ("Max Cushion|High|Men\x27s 8-8.5 | Women\x27s 9-9.5", "KMXHIN1M8"),
  ("Max Cushion|High|Men\x27s 9-9.5 | Women\x27s 10-10.5", "KMXHIN1M9"),
  ("Max Cushion|High|Men\x27s 10-10.5 | Women\x27s 11-11.5", "KMXHIN1M10"),
  ("Max Cushion|High|Men\x27s 11-11.5 | Women\x27s 12-12.5", "KMXHIN1M11"),
  ("Max Cushion|High|Men\x27s 12-12.5 | Women\x27s 13-13.5", "KMXHIN1M12"),
  ("Max Cushion|High|Men\x27s 13-13.5", "KMXHIN1M13"),
  ("Max Cushion|High|Men\x27s 14-14.5", "KMXHIN1M14"),
  ("Max Cushion|High|Men\x27s 15-15.5", "KMXHIN1M15"),
  ("Low Profile|Low|Men\x27s 5-5.5 | Women\x27s 6-6.5", "KLPIN1M5"),
  ("Low Profile|Low|Men\x27s 6-6.5 | Women\x27s 7-7.5", "KLPIN1M6"),
  ("Low Profile|Low|Men\x27s 7-7.5 | Women\x27s 8-8.5", "KLPIN1M7"),
  ("Low Profile|Low|Men\x27s 8-8.5 | Women\x27s 9-9.5", "KLPIN1M8"),
  ("Low Profile|Low|Men\x27s 9-9.5 | Women\x27s 10-10.5", "KLPIN1M9"),
  ("Low Profile|Low|Men\x27s 10-10.5 | Women\x27s 11-11.5", "KLPIN1M10"),
  ("Low Profile|Low|Men\x27s 11-11.5 | Women\x27s 12-12.5", "KLPIN1M11"),
  ("Low Profile|Low|Men\x27s 12-12.5 | Women\x27s 13-13.5", "KLPIN1M12"),
  ("Low Profile|Low|Men\x27s 13-13.5", "KLPIN1M13"),
  ("Low Profile|Low|Men\x27s 14-14.5", "KLPIN1M14"),
  ("Low Profile|Low|Men\x27s 15-15.5", "KLPIN1M15"),
  ("Low Profile|Medium|Men\x27s 5-5.5 | Women\x27s 6-6.5", "KLPMIN1M5"),
  ("Low Profile|Medium|Men\x27s 6-6.5 | Women\x27s 7-7.5", "KLPMIN1M6"),
  ("Low Profile|Medium|Men\x27s 7-7.5 | Women\x27s 8-8.5", "KLPMIN1M7"),
  ("Low Profile|Medium|Men\x27s 8-8.5 | Women\x27s 9-9.5", "KLPMIN1M8"),
  ("Low Profile|Medium|Men\x27s 9-9.5 | Women\x27s 10-10.5", "KLPMIN1M9"),
  ("Low Profile|Medium|Men\x27s 10-10.5 | Women\x27s 11-11.5", "KLPMIN1M10"),
  ("Low Profile|Medium|Men\x27s 11-11.5 | Women\x27s 12-12.5", "KLPMIN1M11"),
  ("Low Profile|Medium|Men\x27s 12-12.5 | Women\x27s 13-13.5", "KLPMIN1M12"),
  ("Low Profile|Medium|Men\x27s 13-13.5", "KLPMIN1M13"),
  ("Low Profile|Medium|Men\x27s 14-14.5", "KLPMIN1M14"),
  ("Low Profile|Medium|Men\x27s 15-15.5", "KLPMIN1M15"),
  ("Low Profile|High|Men\x27s 5-5.5 | Women\x27s 6-6.5", "KLPHIN1M5"),
  ("Low Profile|High|Men\x27s 6-6.5 | Women\x27s 7-7.5", "KLPHIN1M6"),
  ("Low Profile|High|Men\x27s 7-7.5 | Women\x27s 8-8.5", "KLPHIN1M7"),
  ("Low Profile|High|Men\x27s 8-8.5 | Women\x27s 9-9.5", "KLPHIN1M8"),
  ("Low Profile|High|Men\x27s 9-9.5 | Women\x27s 10-10.5", "KLPHIN1M9"),
  ("Low Profile|High|Men\x27s 10-10.5 | Women\x27s 11-11.5", "KLPHIN1M10"),
  ("Low Profile|High|Men\x27s 11-11.5 | Women\x27s 12-12.5", "KLPHIN1M11"),
  ("Low Profile|High|Men\x27s 12-12.5 | Women\x27s 13-13.5", "KLPHIN1M12"),
  ("Low Profile|High|Men\x27s 13-13.5", "KLPHIN1M13"),
  ("Low Profile|High|Men\x27s 14-14.5", "KLPHIN1M14"),
  ("Low Profile|High|Men\x27s 15-15.5", "KLPHIN1M15")
]

/-- Variant-key to SKU table for "Fleks\u00ae East Beach Slides" in PRODUCT_SKU_MAPPING. -/
def fleksSlidesMapping : List (String × String) := [
  ("Blu Blue|Women\x27s 5 | Men\x27s 4", "808-1BLUW5"),
  ("Blu Blue|Women\x27s 6 | Men\x27s 5", "808-1BLUW6"),
  ("Blu Blue|Women\x27s 7 | Men\x27s 6", "808-1BLUW7"),
  ("Blu Blue|Women\x27s 8 | Men\x27s 7", "808-1BLUW8"),
  ("Blu Blue|Women\x27s 9 | Men\x27s 8", "808-1BLUW9"),
  ("Blu Blue|Women\x27s 10 | Men\x27s 9", "808-1BLUW10"),
  ("Blu Blue|Women\x27s 11 | Men\x27s 10", "808-1BLUW11"),
  ("Blu Blue|Women\x27s 12 | Men\x27s 11", "808-1BLUW12"),
  ("Blu Blue|Women\x27s 13 | Men\x27s 12", "808-1BLUW13"),
  ("Blu Blue|Women\x27s 14 | Men\x27s 13", "808-1BLUW14"),
  ("Blu Blue|Women\x27s 15 | Men\x27s 14", "808-1BLUW15"),
  ("Blu Blue|Women\x27s 16 | Men\x27s 15", "808-1BLUW16"),
  ("Deep Blue Sea|Women\x27s 5 | Men\x27s 4", "808-1DBSW5"),
  ("Deep Blue Sea|Women\x27s 6 | Men\x27s 5", "808-1DBSW6"),
  ("Deep Blue Sea|Women\x27s 7 | Men\x27s 6", "808-1DBSW7"),
  ("Deep Blue Sea|Women\x27s 8 | Men\x27s 7", "808-1DBSW8"),
  ("Deep Blue Sea|Women\x27s 9 | Men\x27s 8", "808-1DBSW9"),
  ("Deep Blue Sea|Women\x27s 10 | Men\x27s 9", "808-1DBSW10"),
  ("Deep Blue Sea|Women\x27s 11 | Men\x27s 10", "808-1DBSW11"),
  ("Deep Blue Sea|Women\x27s 12 | Men\x27s 11", "808-1DBSW12"),
  ("Deep Blue Sea|Women\x27s 13 | Men\x27s 12", "808-1DBSW13"),
  ("Deep Blue Sea|Women\x27s 14 | Men\x27s 13", "808-1DBSW14"),
  ("Deep Blue Sea|Women\x27s 15 | Men\x27s 14", "808-1DBSW15"),
  ("Deep Blue Sea|Women\x27s 16 | Men\x27s 15", "808-1DBSW16"),
  ("Night|Women\x27s 5 | Men\x27s 4", "808-1NGTW5"),
  ("Night|Women\x27s 6 | Men\x27s 5", "808-1NGTW6"),
  ("Night|Women\x27s 7 | Men\x27s 6", "808-1NGTW7"),
  ("Night|Women\x27s 8 | Men\x27s 7", "808-1NGTW8"),
  ("Night|Women\x27s 9 | Men\x27s 8", "808-1NGTW9"),
  ("Night|Women\x27s 10 | Men\x27s 9", "808-1NGTW10"),
  ("Night|Women\x27s 11 | Men\x27s 10", "808-1NGTW11"),
  ("Night|Women\x27s 12 | Men\x27s 11", "808-1NGTW12"),
  ("Night|Women\x27s 13 | Men\x27s 12", "808-1NGTW13"),
  ("Night|Women\x27s 14 | Men\x27s 13", "808-1NGTW14"),
  ("Night|Women\x27s 15 | Men\x27s 14", "808-1NGTW15"),
  ("Night|Women\x27s 16 | Men\x27s 15", "808-1NGTW16"),
  ("Clear Day|Women\x27s 5 | Men\x27s 4", "808-1CLDW5"),
  ("Clear Day|Women\x27s 6 | Men\x27s 5", "808-1CLDW6"),
  ("Clear Day|Women\x27s 7 | Men\x27s 6", "808-1CLDW7"),
  ("Clear Day|Women\x27s 8 | Men\x27s 7", "808-1CLDW8"),
  ("Clear Day|Women\x27s 9 | Men\x27s 8", "808-1CLDW9"),
  ("Clear Day|Women\x27s 10 | Men\x27s 9", "808-1CLDW10"),
  ("Clear Day|Women\x27s 11 | Men\x27s 10", "808-1CLDW11"),
  ("Clear Day|Women\x27s 12 | Men\x27s 11", "808-1CLDW12"),
  ("Clear Day|Women\x27s 13 | Men\x27s 12", "808-1CLDW13"),
  ("Clear Day|Women\x27s 14 | Men\x27s 13", "808-1CLDW14"),
  ("Clear Day|Women\x27s 15 | Men\x27s 14", "808-1CLDW15"),
  ("Clear Day|Women\x27s 16 | Men\x27s 15", "808-1CLDW16"),
  ("Morning Coffee|Women\x27s 5 | Men\x27s 4", "808-1MCOW5"),
  ("Morning Coffee|Women\x27s 6 | Men\x27s 5", "808-1MCOW6"),
  ("Morning Coffee|Women\x27s 7 | Men\x27s 6", "808-1MCOW7"),
  ("Morning Coffee|Women\x27s 8 | Men\x27s 7", "808-1MCOW8"),
  ("Morning Coffee|Women\x27s 9 | Men\x27s 8", "808-1MCOW9"),
  ("Morning Coffee|Women\x27s 10 | Men\x27s 9", "808-1MCOW10"),
  ("Morning Coffee|Women\x27s 11 | Men\x27s 10", "808-1MCOW11"),
  ("Morning Coffee|Women\x27s 12 | Men\x27s 11", "808-1MCOW12"),
  ("Morning Coffee|Women\x27s 13 | Men\x27s 12", "808-1MCOW13"),
  ("Morning Coffee|Women\x27s 14 | Men\x27s 13", "808-1MCOW14"),
  ("Morning Coffee|Women\x27s 15 | Men\x27s 14", "808-1MCOW15"),
  ("Morning Coffee|Women\x27s 16 | Men\x27s 15", "808-1MCOW16"),
  ("Blushed|Women\x27s 5 | Men\x27s 4", "808-1BLSW5"),
  ("Blushed|Women\x27s 6 | Men\x27s 5", "808-1BLSW6"),
  ("Blushed|Women\x27s 7 | Men\x27s 6", "808-1BLSW7"),
  ("Blushed|Women\x27s 8 | Men\x27s 7", "808-1BLSW8"),
  ("Blushed|Women\x27s 9 | Men\x27s 8", "808-1BLSW9"),
  ("Blushed|Women\x27s 10 | Men\x27s 9", "808-1BLSW10"),
  ("Blushed|Women\x27s 11 | Men\x27s 10", "808-1BLSW11"),
  ("Blushed|Women\x27s 12 | Men\x27s 11", "808-1BLSW12"),
  ("Blushed|Women\x27s 13 | Men\x27s 12", "808-1BLSW13"),
  ("Blushed|Women\x27s 14 | Men\x27s 13", "808-1BLSW14"),
  ("Blushed|Women\x27s 15 | Men\x27s 14", "808-1BLSW15"),
  ("Blushed|Women\x27s 16 | Men\x27s 15", "808-1BLSW16"),
  ("Starfish|Women\x27s 5 | Men\x27s 4", "808-1STRW5"),
  ("Starfish|Women\x27s 6 | Men\x27s 5", "808-1STRW6"),
  ("Starfish|Women\x27s 7 | Men\x27s 6", "808-1STRW7"),
  ("Starfish|Women\x27s 8 | Men\x27s 7", "808-1STRW8"),
  ("Starfish|Women\x27s 9 | Men\x27s 8", "808-1STRW9"),
  ("Starfish|Women\x27s 10 | Men\x27s 9", "808-1STRW10"),
  ("Starfish|Women\x27s 11 | Men\x27s 10", "808-1STRW11"),
  ("Starfish|Women\x27s 12 | Men\x27s 11", "808-1STRW12"),
  ("Starfish|Women\x27s 13 | Men\x27s 12", "808-1STRW13"),
  ("Starfish|Women\x27s 14 | Men\x27s 13", "808-1STRW14"),
  ("Starfish|Women\x27s 15 | Men\x27s 14", "808-1STRW15"),
  ("Starfish|Women\x27s 16 | Men\x27s 15", "808-1STRW16")
]

/-- Variant-key to SKU table for "NonSlip Carbon Elite Insole" in PRODUCT_SKU_MAPPING. -/
def carbonEliteInsoleMapping : List (String × String) := [
  ("Men\x27s 5-5.5 | Women\x27s 6-6.5", "KMXCEINM5"),
  ("Men\x27s 6-6.5 | Women\x27s 7-7.5", "KMXCEINM6"),
  ("Men\x27s 7-7.5 | Women\x27s 8-8.5", "KMXCEINM7"),
  ("Men\x27s 8-8.5 | Women\x27s 9-9.5", "KMXCEINM8"),
  ("Men\x27s 9-9.5 | Women\x27s 10-10.5", "KMXCEINM9"),
  ("Men\x27s 10-10.5 | Women\x27s 11-11.5", "KMXCEINM10"),
  ("Men\x27s 11-11.5 | Women\x27s 12-12.5", "KMXCEINM11"),
  ("Men\x27s 12-12.5 | Women\x27s 13-13.5", "KMXCEINM12"),
  ("Men\x27s 13-13.5", "KMXCEINM13"),
  ("Men\x27s 14-14.5", "KMXCEINM14"),
  ("Men\x27s 15-15.5", "KMXCEINM15")
]

/-- The top level of `PRODUCT_SKU_MAPPING`: product name to its
variant-key table (`undefined`, i.e. `none`, for unknown products). -/
def PRODUCT_SKU_MAPPING (productName : String) : Option (List (String × String)) :=
  if productName = "Max Comfort Insoles" then some maxComfortInsolesMapping
  else if productName = "NonSlip \x27FoamLock\x27 Performance Insoles" then
    some foamLockInsolesMapping
  else if productName = "Fleks® East Beach Slides" then some fleksSlidesMapping
  else if productName = "NonSlip Carbon Elite Insole" then some carbonEliteInsoleMapping
  else none

/-- Property access `dict[key]` on a string-keyed object modelled as an
association list (keys are unique by construction of the insert below):
`some` value, or `none` for `undefined`. -/
def lookupKey (dict : List (String × String)) (key : String) : Option String :=
  match dict.find? (fun p => p.1 = key) with
  | some p => some p.2
  | none => none

/-- Scan for the split point of the regex `^(.+?):\s*(.+)$`: the first `:`
preceded by at least one character and followed by at least one character
(the lazy `(.+?)` takes the shortest prefix; `\s*` and the surrounding
`.trim()` calls collapse into trimming both parts). `seen` holds the
reversed characters before the cursor. -/
def splitKeyAux (seen : List Char) : List Char → Option (List Char × List Char)
  | [] => none
  | c :: rest =>
    if c = ':' && !seen.isEmpty && !rest.isEmpty then some (seen.reverse, rest)
    else splitKeyAux (c :: seen) rest

/-- `.trim()`: drop whitespace from both ends of a character list. -/
def trimChars (cs : List Char) : List Char :=
  ((cs.dropWhile Char.isWhitespace).reverse.dropWhile Char.isWhitespace).reverse

/-- `key.match(/^(.+?):\s*(.+)$/)` followed by `.trim()` on both captures:
product name and option type, or `none` when the key has no such split. -/
def splitPropertyKey (key : String) : Option (String × String) :=
  match splitKeyAux [] key.data with
  | none => none
  | some (p, s) => some (String.mk (trimChars p), String.mk (trimChars s))

/-- `groups[productName][optionType] = value` on the inner object:
overwrite in place when the option type exists, else append (JS property
insertion order). -/
def insertOption : List (String × String) → String → String → List (String × String)
  | [], optionType, value => [(optionType, value)]
  | (k, v) :: rest, optionType, value =>
    if k = optionType then (k, value) :: rest
    else (k, v) :: insertOption rest optionType value

/-- Insert one parsed property into the product groups: create the product
group on first sight (appended, preserving first-seen order), else update
its option table. -/
def insertGroup : List (String × List (String × String)) → String → String → String →
    List (String × List (String × String))
  | [], productName, optionType, value => [(productName, [(optionType, value)])]
  | (name, opts) :: rest, productName, optionType, value =>
    if name = productName then (name, insertOption opts optionType value) :: rest
    else (name, opts) :: insertGroup rest productName optionType value

/-- `groupPropertiesByProduct(properties)`: fold over `Object.entries`,
keeping only keys matching `^(.+?):\s*(.+)$` and grouping by the (trimmed)
product name. -/
def groupPropertiesByProduct (properties : List (String × String)) :
    List (String × List (String × String)) :=
  properties.foldl
    (fun groups kv =>
      match splitPropertyKey kv.1 with
      | none => groups
      | some (productName, optionType) => insertGroup groups productName optionType kv.2)
    []

/-- JS truthiness of `selectedOptions[k]` for string values: present and
nonempty (the empty string is falsy). -/
def truthyOpt (o : Option String) : Bool :=
  match o with
  | none => false
  | some s => !(s = "")

/-- `findSKUForProduct(productName, selectedOptions)`: build the variant
key according to the product shape, then look it up in the product's
table; `null` is `none`. The final `if (variantKey && productMapping[variantKey])`
is a truthiness test on both the key and the mapped SKU. -/
def findSKUForProduct (productName : String) (selectedOptions : List (String × String)) :
    Option String :=
  match PRODUCT_SKU_MAPPING productName with
  | none => none
  | some productMapping =>
    let variantKey : Option String :=
      if productName = "Max Comfort Insoles" ||
          productName = "NonSlip \x27FoamLock\x27 Performance Insoles" then
        let profile := lookupKey selectedOptions "Profile"
        let archSupport := lookupKey selectedOptions "Arch Support"
        let size := lookupKey selectedOptions "Size"
        if truthyOpt profile && truthyOpt archSupport && truthyOpt size then
          some (profile.getD "" ++ "|" ++ archSupport.getD "" ++ "|" ++ size.getD "")
        else none
      else if productName = "Fleks® East Beach Slides" then
        let color := lookupKey selectedOptions "Color"
        let size := lookupKey selectedOptions "Size"
        if truthyOpt color && truthyOpt size then
          some (color.getD "" ++ "|" ++ size.getD "")
        else none
      else if productName = "NonSlip Carbon Elite Insole" then
        let size := lookupKey selectedOptions "Size"
        if truthyOpt size then size else none
      else none
    match variantKey with
    | none => none
    | some key =>
      if key = "" then none
      else
        match lookupKey productMapping key with
        | some sku => if sku = "" then none else some sku
        | none => none

/-- `convertToOriginalProperties(productName, selectedOptions)`: rebuild
the `name`/`value` pairs, `name` being `` `${productName}: ${optionType}` ``. -/
def convertToOriginalProperties (productName : String)
    (selectedOptions : List (String × String)) : List (String × String) :=
  selectedOptions.map (fun kv => (productName ++ ": " ++ kv.1, kv.2))

/-- `parsePropertiesToSKUs(properties)`: for each product group in order,
push a line item with the found SKU and `quantity: 1`, skipping products
with no SKU. -/
def parsePropertiesToSKUs (properties : List (String × String)) : List LineItem :=
  (groupPropertiesByProduct properties).filterMap
    (fun g =>
      match findSKUForProduct g.1 g.2 with
      | some sku => some ⟨sku, 1, convertToOriginalProperties g.1 g.2⟩
      | none => none)

/-- Decidable equality of `Except` results (used to evaluate the model on
concrete inputs). -/
instance {ε α : Type} [DecidableEq ε] [DecidableEq α] : DecidableEq (Except ε α) := fun
  | .error a, .error b =>
    if h : a = b then .isTrue (by rw [h]) else .isFalse (by simp [h])
  | .error _, .ok _ => .isFalse (by simp)
  | .ok _, .error _ => .isFalse (by simp)
  | .ok a, .ok b =>
    if h : a = b then .isTrue (by rw [h]) else .isFalse (by simp [h])

/-- `maxPages = 10` in `getVariantBySKU` (“Prevent infinite loops”). -/
def maxPages : Nat := 10

/-- The products URL built each iteration:
`https://<domain>/admin/api/2024-01/products.json?fields=id,title,variants&limit=250`,
with `&page_info=<cursor>` appended when a cursor is carried. -/
def productsURL (shopDomain : String) (pageInfo : Option String) : String :=
  let url := "https://" ++ shopDomain ++
    "/admin/api/2024-01/products.json?fields=id,title,variants&limit=250"
  match pageInfo with
  | none => url
  | some cursor => url ++ "&page_info=" ++ cursor

/-- The locations URL of `getInventoryLevel`. -/
def locationsURL (shopDomain : String) : String :=
  "https://" ++ shopDomain ++ "/admin/api/2024-01/locations.json"

/-- The inventory-levels URL of `getInventoryLevel`. -/
def inventoryLevelsURL (shopDomain : String) (inventoryItemId : Nat)
    (locationIds : String) : String :=
  "https://" ++ shopDomain ++ "/admin/api/2024-01/inventory_levels.json?inventory_item_ids="
    ++ toString inventoryItemId ++ "&location_ids=" ++ locationIds

/-- The `do ... while (nextPageInfo && pageCount < maxPages)` loop of
`getVariantBySKU`. `pageCount` is incremented at the top of each
iteration, exactly as in the source; on success the accumulated products
and the final `pageCount` are returned, a fetch error propagates
(`throw`), and the second component is the trace of issued requests.
`fuel` only makes the recursion structural: callers pass
`fuel = maxPages`, and since the loop recurses only while
`pageCount + 1 < maxPages`, fuel `maxPages - pageCount` never runs out
before the source's own `pageCount < maxPages` guard stops the loop (see
`productsLoop_fuel_irrelevant`). -/
def productsLoop (shop : Shop) (shopDomain : String) :
    Nat → Option String → List Product → Nat →
    Except String (List Product × Nat) × List Request
  | fuel, pageInfo, allProducts, pageCount =>
    let pageCount' := pageCount + 1
    let req : Request := ⟨Method.GET, productsURL shopDomain pageInfo⟩
    match shop.pages pageInfo with
    | .error e => (.error e, [req])
    | .ok page =>
      let allProducts' := allProducts ++ page.products
      match page.nextPageInfo with
      | none => (.ok (allProducts', pageCount'), [req])
      | some next =>
        if pageCount' < maxPages then
          match fuel with
          | 0 => (.ok (allProducts', pageCount'), [req])
          | fuel' + 1 =>
            let r := productsLoop shop shopDomain fuel' (some next) allProducts' pageCount'
            (r.1, req :: r.2)
        else (.ok (allProducts', pageCount'), [req])

/-- The nested `for (const product of allProducts) for (const variant of
product.variants) if (variant.sku === sku)` search: first variant with a
matching `sku`, scanning products in order and variants in order. -/
def findVariantInProducts (sku : String) : List Product → Option Variant
  | [] => none
  | product :: rest =>
    match product.variants.find? (fun v => v.sku = sku) with
    | some v => some v
    | none => findVariantInProducts sku rest

/-- `getVariantBySKU(sku, shopDomain, accessToken)`: run the pagination
loop from no cursor, then scan all accumulated products for the SKU.
Errors propagate to the caller (the source catches and rethrows). -/
def getVariantBySKU (shop : Shop) (shopDomain : String) (sku : String) :
    Except String VariantResult × List Request :=
  let r := productsLoop shop shopDomain maxPages none [] 0
  match r.1 with
  | .error e => (.error e, r.2)
  | .ok (allProducts, _) =>
    match findVariantInProducts sku allProducts with
    | some v => (.ok (.found v allProducts.length), r.2)
    | none => (.ok (.notFound allProducts.length), r.2)

/-- `locationsData.locations.map(loc => loc.id).join(',')`. -/
def joinLocationIds (locations : List Location) : String :=
  String.intercalate "," (locations.map (fun loc => toString loc.id))

/-- `level.available || 0` summed over all returned inventory-level
records (missing/`null` counts as 0). -/
def sumAvailable (levels : List InventoryLevel) : Int :=
  (levels.map (fun level => level.available.getD 0)).sum

/-- `getInventoryLevel(inventoryItemId, shopDomain, accessToken)`: fetch
all locations, fail-closed when that fails or returns no locations, then
fetch inventory levels for all location ids and sum `available` across
the returned records. All errors are caught inside and become
`success: false` with `totalAvailable: 0`. -/
def getInventoryLevel (shop : Shop) (shopDomain : String) (inventoryItemId : Nat) :
    InvResult × List Request :=
  let locReq : Request := ⟨Method.GET, locationsURL shopDomain⟩
  match shop.locationsResp with
  | .error e => (⟨false, some e, 0⟩, [locReq])
  | .ok locations =>
    if locations.length = 0 then
      (⟨false, some "No locations found", 0⟩, [locReq])
    else
      let locationIds := joinLocationIds locations
      let invReq : Request :=
        ⟨Method.GET, inventoryLevelsURL shopDomain inventoryItemId locationIds⟩
      match shop.inventoryLevelsResp inventoryItemId locationIds with
      | .error e => (⟨false, some e, 0⟩, [locReq, invReq])
      | .ok levels => (⟨true, none, sumAvailable levels⟩, [locReq, invReq])

/-- One iteration of the `for (const item of lineItems)` loop of
`checkInventoryLevels`, including its `try/catch`: the only throwing call
in the body is `getVariantBySKU` (then caught, pushing a fail-closed
result); `getInventoryLevel` catches its own errors. -/
def checkItem (shop : Shop) (shopDomain : String) (item : LineItem) :
    StockResult × List Request :=
  let gv := getVariantBySKU shop shopDomain item.sku
  match gv.1 with
  | .error e => (⟨item.sku, item.quantity, false, .qty 0, some e⟩, gv.2)
  | .ok (.notFound _) =>
    (⟨item.sku, item.quantity, false, .qty 0, some "Product variant not found"⟩, gv.2)
  | .ok (.found variant _) =>
    if variant.inventory_management ≠ some "shopify" then
      (⟨item.sku, item.quantity, true, .unlimited, none⟩, gv.2)
    else
      let inv := getInventoryLevel shop shopDomain variant.inventory_item_id
      if inv.1.success then
        (⟨item.sku, item.quantity,
          decide (inv.1.totalAvailable ≥ (item.quantity : Int)),
          .qty inv.1.totalAvailable, none⟩, gv.2 ++ inv.2)
      else
        (⟨item.sku, item.quantity, false, .qty 0, inv.1.error⟩, gv.2 ++ inv.2)

/-- `checkInventoryLevels(lineItems, ...)`: one result pushed per line
item, in order; the trace is the concatenation of the per-item traces. -/
def checkInventoryLevels (shop : Shop) (shopDomain : String) (lineItems : List LineItem) :
    List StockResult × List Request :=
  (lineItems.map (fun item => (checkItem shop shopDomain item).1),
   lineItems.flatMap (fun item => (checkItem shop shopDomain item).2))

/-- The handler body from `parsePropertiesToSKUs` on (source lines 55-143),
for a POST request whose body parsed to an object `properties` and with
credentials present: validate that exactly 2 line items were derived
(400 otherwise, issuing no platform request), then check stock and report
`available` with `outOfStockItems = stockResults.filter(item => !item.available)`
and `allInStock = outOfStockItems.length === 0`. -/
def handlerPost (shop : Shop) (shopDomain : String)
    (properties : List (String × String)) : HandlerResponse × List Request :=
  let lineItems := parsePropertiesToSKUs properties
  if lineItems.length = 0 then
    (⟨400, .err "No valid SKUs found from properties - could not map any products"⟩, [])
  else if lineItems.length = 1 then
    (⟨400, .err "Bundle incomplete - only found 1 product SKU, expected 2 products"⟩, [])
  else if lineItems.length ≠ 2 then
    (⟨400, .err ("Invalid bundle configuration - found " ++ toString lineItems.length
      ++ " products, expected exactly 2")⟩, [])
  else
    let res := checkInventoryLevels shop shopDomain lineItems
    let stockResults := res.1
    let outOfStockItems := stockResults.filter (fun item => !item.available)
    if outOfStockItems.length = 0 then
      (⟨200, .allInStock lineItems stockResults⟩, res.2)
    else
      (⟨200, .someOutOfStock outOfStockItems stockResults lineItems⟩, res.2)

/-! ## Concrete fixtures used to evaluate the model -/

/-- A well-formed two-product bundle properties object. -/
def demoProps : List (String × String) :=
  [("Max Comfort Insoles: Profile", "Max Cushion"),
   ("Max Comfort Insoles: Arch Support", "Low"),
   ("Max Comfort Insoles: Size", "Men\x27s 13-13.5"),
   ("NonSlip Carbon Elite Insole: Size", "Men\x27s 13-13.5")]

/-- A properties object describing only one product of the bundle. -/
def onlyCarbonProps : List (String × String) :=
  [("NonSlip Carbon Elite Insole: Size", "Men\x27s 13-13.5")]

/-- A tracked variant for the first demo SKU. -/
def demoVariantA : Variant := ⟨111, "CMXIN1M13", some "shopify", 9111, some "deny"⟩

/-- An untracked variant (`inventory_management: null`) for the second demo SKU. -/
def demoVariantB : Variant := ⟨222, "KMXCEINM13", none, 9222, none⟩

/-- A one-page catalog holding both demo variants. -/
def demoPage : ProductsPage := ⟨[⟨1, "P1", [demoVariantA, demoVariantB]⟩], none⟩

/-- A platform with a one-page catalog, one location, and 5 units on hand
for every inventory item. -/
def demoShop : Shop where
  pages := fun _ => .ok demoPage
  locationsResp := .ok [⟨10, "Main", true, false⟩]
  inventoryLevelsResp := fun _ _ => .ok [⟨10, some 5⟩]

/-- The line item `parsePropertiesToSKUs` derives from the first demo product. -/
def demoItemA : LineItem :=
  ⟨"CMXIN1M13", 1,
   [("Max Comfort Insoles: Profile", "Max Cushion"),
    ("Max Comfort Insoles: Arch Support", "Low"),
    ("Max Comfort Insoles: Size", "Men\x27s 13-13.5")]⟩

/-- A platform whose catalog is one empty page: every SKU resolves to
not-found. -/
def emptyShop : Shop where
  pages := fun _ => .ok ⟨[], none⟩
  locationsResp := .ok []
  inventoryLevelsResp := fun _ _ => .error "unused"

/-! ## Helper lemmas -/

/-- `outOfStockItems.length === 0` is the same test as "every stock result
is available". -/
theorem no_out_of_stock_iff_all (l : List StockResult) :
    (l.filter (fun r => !r.available)).length = 0 ↔
      l.all (fun r => r.available) = true := by
  rw [List.length_eq_zero, List.filter_eq_nil_iff, List.all_eq_true]
  simp

/-- The handler response for a bundle that derived exactly 2 line items:
status 200, the two stock-check branches, and the stock-check trace. -/
theorem handlerPost_two (shop : Shop) (dom : String) (props : List (String × String))
    (h : (parsePropertiesToSKUs props).length = 2) :
    handlerPost shop dom props =
      (if ((checkInventoryLevels shop dom (parsePropertiesToSKUs props)).1.filter
            (fun item => !item.available)).length = 0 then
        (⟨200, .allInStock (parsePropertiesToSKUs props)
            (checkInventoryLevels shop dom (parsePropertiesToSKUs props)).1⟩,
         (checkInventoryLevels shop dom (parsePropertiesToSKUs props)).2)
      else
        (⟨200, .someOutOfStock
            ((checkInventoryLevels shop dom (parsePropertiesToSKUs props)).1.filter
              (fun item => !item.available))
            (checkInventoryLevels shop dom (parsePropertiesToSKUs props)).1
            (parsePropertiesToSKUs props)⟩,
         (checkInventoryLevels shop dom (parsePropertiesToSKUs props)).2)) := by
  unfold handlerPost
  simp only [h]
  norm_num

/-! ## Claims -/

/-- C7: `parsePropertiesToSKUs` (via `groupPropertiesByProduct` and
`findSKUForProduct` over the static `PRODUCT_SKU_MAPPING`) is a pure
function of the properties object: two runs on equal inputs produce equal
line-item lists (same SKUs, quantities, converted properties, in the same
order). -/
theorem parsePropertiesToSKUs_deterministic (p₁ p₂ : List (String × String))
    (h : p₁ = p₂) : parsePropertiesToSKUs p₁ = parsePropertiesToSKUs p₂ := by
  rw [h]

/-- Witness for C7 at a concrete properties object. -/
theorem parsePropertiesToSKUs_deterministic_witness :
    parsePropertiesToSKUs demoProps = parsePropertiesToSKUs demoProps :=
  parsePropertiesToSKUs_deterministic demoProps demoProps rfl

/-- C2: when the parsed properties derive a number of line items different
from 2 (zero, one, or more), the handler returns status 400 with an error
body and issues no platform request at all (in particular the inventory
check is never invoked; it runs only in the exactly-2 case). -/
theorem handler_rejects_non_two_bundles (shop : Shop) (dom : String)
    (props : List (String × String))
    (h : (parsePropertiesToSKUs props).length ≠ 2) :
    (handlerPost shop dom props).1.statusCode = 400 ∧
    (∃ msg, (handlerPost shop dom props).1.body = .err msg) ∧
    (handlerPost shop dom props).2 = [] := by
  unfold handlerPost
  by_cases h0 : (parsePropertiesToSKUs props).length = 0
  · simp [h0]
  · by_cases h1 : (parsePropertiesToSKUs props).length = 1
    · simp [h0, h1]
    · simp [h0, h1, h]

/-- Witness for C2: a one-product properties object is rejected with 400. -/
theorem handler_rejects_non_two_bundles_witness :
    (handlerPost demoShop "shop.example" onlyCarbonProps).1.statusCode = 400 :=
  (handler_rejects_non_two_bundles demoShop "shop.example" onlyCarbonProps
    (by decide)).1

/-- C1: for a request that derives exactly 2 line items, the handler
returns status 200; its `available` field is `true` iff every per-item
stock result is available, and when some item is unavailable the body is
the out-of-stock shape whose `outOfStockItems` are exactly the results
with `available === false`. -/
theorem handler_two_items_stock_decision (shop : Shop) (dom : String)
    (props : List (String × String))
    (h : (parsePropertiesToSKUs props).length = 2) :
    (handlerPost shop dom props).1.statusCode = 200 ∧
    ((handlerPost shop dom props).1.body.availableField =
      some ((checkInventoryLevels shop dom (parsePropertiesToSKUs props)).1.all
        (fun r => r.available))) ∧
    ((checkInventoryLevels shop dom (parsePropertiesToSKUs props)).1.all
        (fun r => r.available) = false →
      (handlerPost shop dom props).1.body =
        .someOutOfStock
          ((checkInventoryLevels shop dom (parsePropertiesToSKUs props)).1.filter
            (fun r => !r.available))
          (checkInventoryLevels shop dom (parsePropertiesToSKUs props)).1
          (parsePropertiesToSKUs props)) := by
  rw [handlerPost_two shop dom props h]
  by_cases hf :
      ((checkInventoryLevels shop dom (parsePropertiesToSKUs props)).1.filter
        (fun item => !item.available)).length = 0
  · have hall := (no_out_of_stock_iff_all _).mp hf
    simp [hf, hall, HandlerBody.availableField]
  · have hall : (checkInventoryLevels shop dom (parsePropertiesToSKUs props)).1.all
        (fun r => r.available) = false := by
      rcases Bool.eq_false_or_eq_true
        ((checkInventoryLevels shop dom (parsePropertiesToSKUs props)).1.all
          (fun r => r.available)) with hb | hb
      · exact absurd ((no_out_of_stock_iff_all _).mpr hb) hf
      · exact hb
    simp [hf, hall, HandlerBody.availableField]

/-- Witness for C1 at a concrete shop and two-item bundle. -/
theorem handler_two_items_stock_decision_witness :
    (handlerPost demoShop "shop.example" demoProps).1.statusCode = 200 ∧
    (handlerPost demoShop "shop.example" demoProps).1.body.availableField =
      some ((checkInventoryLevels demoShop "shop.example"
        (parsePropertiesToSKUs demoProps)).1.all (fun r => r.available)) :=
  ⟨(handler_two_items_stock_decision demoShop "shop.example" demoProps (by decide)).1,
   (handler_two_items_stock_decision demoShop "shop.example" demoProps (by decide)).2.1⟩

/-- C6: a line item whose resolved variant is not tracked
(`inventory_management !== 'shopify'`) is reported available with
`availableQuantity: 'unlimited'`, and no further platform request is made
for it beyond the variant search (so no inventory-levels query). -/
theorem untracked_variant_assumed_available (shop : Shop) (dom : String)
    (item : LineItem) (v : Variant) (n : Nat)
    (hv : (getVariantBySKU shop dom item.sku).1 = .ok (.found v n))
    (hm : v.inventory_management ≠ some "shopify") :
    (checkItem shop dom item).1 =
      ⟨item.sku, item.quantity, true, .unlimited, none⟩ ∧
    (checkItem shop dom item).2 = (getVariantBySKU shop dom item.sku).2 := by
  simp only [checkItem, hv]
  simp [hm]

/-- Witness for C6: an untracked variant on the demo shop. -/
theorem untracked_variant_assumed_available_witness :
    (checkItem demoShop "shop.example" ⟨"KMXCEINM13", 1, []⟩).1 =
      ⟨"KMXCEINM13", 1, true, .unlimited, none⟩ :=
  (untracked_variant_assumed_available demoShop "shop.example"
    ⟨"KMXCEINM13", 1, []⟩ demoVariantB 1 (by decide) (by decide)).1

/-- C9: per-item failures are fail-closed. If the variant search throws,
or finds no variant, or the variant is tracked and the inventory-levels
lookup does not succeed (which includes the no-locations case), the
result pushed for that item has `available: false` and
`availableQuantity: 0`; consequently, when such an item is part of a
2-item bundle, the overall decision is `available: false`. -/
theorem per_item_failures_fail_closed (shop : Shop) (dom : String) (item : LineItem)
    (h : (∃ e, (getVariantBySKU shop dom item.sku).1 = .error e) ∨
         (∃ n, (getVariantBySKU shop dom item.sku).1 = .ok (.notFound n)) ∨
         (∃ v n, (getVariantBySKU shop dom item.sku).1 = .ok (.found v n) ∧
           v.inventory_management = some "shopify" ∧
           (getInventoryLevel shop dom v.inventory_item_id).1.success = false)) :
    (checkItem shop dom item).1.available = false ∧
    (checkItem shop dom item).1.availableQuantity = .qty 0 ∧
    ∀ props : List (String × String),
      item ∈ parsePropertiesToSKUs props →
      (parsePropertiesToSKUs props).length = 2 →
      (handlerPost shop dom props).1.body.availableField = some false := by
  have hfail : (checkItem shop dom item).1.available = false ∧
      (checkItem shop dom item).1.availableQuantity = .qty 0 := by
    rcases h with ⟨e, he⟩ | ⟨n, hn⟩ | ⟨v, n, hv, hm, hs⟩
    · simp [checkItem, he]
    · simp [checkItem, hn]
    · simp only [checkItem, hv]
      simp [hm, hs]
  refine ⟨hfail.1, hfail.2, ?_⟩
  intro props hmem hlen
  rw [handlerPost_two shop dom props hlen]
  have hsr : (checkItem shop dom item).1 ∈
      (checkInventoryLevels shop dom (parsePropertiesToSKUs props)).1 := by
    simp only [checkInventoryLevels]
    exact List.mem_map_of_mem _ hmem
  have hne : ¬ ((checkInventoryLevels shop dom (parsePropertiesToSKUs props)).1.filter
      (fun r => !r.available)).length = 0 := by
    intro h0
    have hall := (no_out_of_stock_iff_all _).mp h0
    rw [List.all_eq_true] at hall
    have hx := hall _ hsr
    rw [hfail.1] at hx
    simp at hx
  simp [hne, HandlerBody.availableField]

/-- Witness for C9: on a shop whose catalog is empty, the variant is not
found and the item's result is fail-closed. -/
theorem per_item_failures_fail_closed_witness :
    (checkItem emptyShop "shop.example" demoItemA).1.available = false ∧
    (checkItem emptyShop "shop.example" demoItemA).1.availableQuantity = .qty 0 :=
  ⟨(per_item_failures_fail_closed emptyShop "shop.example" demoItemA
      (Or.inr (Or.inl ⟨0, by decide⟩))).1,
   (per_item_failures_fail_closed emptyShop "shop.example" demoItemA
      (Or.inr (Or.inl ⟨0, by decide⟩))).2.1⟩

/-- C3: for a tracked variant with a successful locations fetch (some
location present) and a successful inventory-levels fetch for all
location ids, `totalAvailable` is the sum of `available` over every
returned record (missing/`null` counted as 0), and the item is reported
available iff `totalAvailable >= quantity`. -/
theorem tracked_variant_aggregation (shop : Shop) (dom : String) (item : LineItem)
    (v : Variant) (n : Nat) (locs : List Location) (levels : List InventoryLevel)
    (hv : (getVariantBySKU shop dom item.sku).1 = .ok (.found v n))
    (hm : v.inventory_management = some "shopify")
    (hl : shop.locationsResp = .ok locs)
    (hne : locs.length ≠ 0)
    (hlev : shop.inventoryLevelsResp v.inventory_item_id (joinLocationIds locs) =
      .ok levels) :
    (getInventoryLevel shop dom v.inventory_item_id).1 =
      ⟨true, none, sumAvailable levels⟩ ∧
    (checkItem shop dom item).1.available =
      decide (sumAvailable levels ≥ (item.quantity : Int)) ∧
    (checkItem shop dom item).1.availableQuantity = .qty (sumAvailable levels) := by
  have hinv : (getInventoryLevel shop dom v.inventory_item_id).1 =
      ⟨true, none, sumAvailable levels⟩ := by
    simp only [getInventoryLevel, hl]
    simp [hne, hlev]
  refine ⟨hinv, ?_, ?_⟩ <;>
  · simp only [checkItem, hv]
    simp [hm, hinv]

/-- Witness for C3 on the demo shop: one location, one level record of 5. -/
theorem tracked_variant_aggregation_witness :
    (getInventoryLevel demoShop "shop.example" 9111).1 =
      ⟨true, none, sumAvailable [⟨10, some 5⟩]⟩ ∧
    (checkItem demoShop "shop.example" demoItemA).1.available =
      decide (sumAvailable [⟨10, some 5⟩] ≥ ((1 : Nat) : Int)) :=
  ⟨(tracked_variant_aggregation demoShop "shop.example" demoItemA demoVariantA 1
      [⟨10, "Main", true, false⟩] [⟨10, some 5⟩]
      (by decide) (by decide) (by decide) (by decide) (by decide)).1,
   (tracked_variant_aggregation demoShop "shop.example" demoItemA demoVariantA 1
      [⟨10, "Main", true, false⟩] [⟨10, some 5⟩]
      (by decide) (by decide) (by decide) (by decide) (by decide)).2.1⟩

/-- C10: every line item produced by `parsePropertiesToSKUs` has
`quantity: 1`, so for a tracked variant whose inventory lookup succeeds
the availability threshold is `totalAvailable >= 1`. -/
theorem parsed_line_items_unit_quantity (props : List (String × String))
    (item : LineItem) (h : item ∈ parsePropertiesToSKUs props) :
    item.quantity = 1 ∧
    ∀ (shop : Shop) (dom : String) (v : Variant) (n : Nat),
      (getVariantBySKU shop dom item.sku).1 = .ok (.found v n) →
      v.inventory_management = some "shopify" →
      (getInventoryLevel shop dom v.inventory_item_id).1.success = true →
      (checkItem shop dom item).1.available =
        decide ((getInventoryLevel shop dom v.inventory_item_id).1.totalAvailable ≥
          (1 : Int)) := by
  have hq : item.quantity = 1 := by
    simp only [parsePropertiesToSKUs, List.mem_filterMap] at h
    obtain ⟨g, hg, hfs⟩ := h
    rcases hcase : findSKUForProduct g.1 g.2 with _ | sku
    · rw [hcase] at hfs
      simp at hfs
    · rw [hcase] at hfs
      simp only [Option.some_inj] at hfs
      rw [← hfs]
  refine ⟨hq, ?_⟩
  intro shop dom v n hv hm hs
  simp only [checkItem, hv]
  simp [hm, hs, hq]

/-- Witness for C10 at the demo bundle: the derived item has quantity 1. -/
theorem parsed_line_items_unit_quantity_witness : demoItemA.quantity = 1 :=
  (parsed_line_items_unit_quantity demoProps demoItemA (by decide)).1

/-! ## Pagination lemmas

One-step unfolding equations for `productsLoop`, one per branch of the
loop body, used by the inductions below. -/

/-- Loop step: the products fetch fails, the error propagates. -/
theorem productsLoop_step_error (shop : Shop) (dom : String) (fuel : Nat)
    (cursor : Option String) (acc : List Product) (pc : Nat) (e : String)
    (hp : shop.pages cursor = .error e) :
    productsLoop shop dom fuel cursor acc pc =
      (.error e, [⟨Method.GET, productsURL dom cursor⟩]) := by
  conv_lhs => rw [productsLoop]
  simp [hp]

/-- Loop step: page fetched, no next cursor, loop exits. -/
theorem productsLoop_step_last (shop : Shop) (dom : String) (fuel : Nat)
    (cursor : Option String) (acc : List Product) (pc : Nat) (page : ProductsPage)
    (hp : shop.pages cursor = .ok page) (hn : page.nextPageInfo = none) :
    productsLoop shop dom fuel cursor acc pc =
      (.ok (acc ++ page.products, pc + 1), [⟨Method.GET, productsURL dom cursor⟩]) := by
  conv_lhs => rw [productsLoop]
  simp [hp, hn]

/-- Loop step: page fetched, next cursor present, but `pageCount` has hit
`maxPages`: the loop exits with the products accumulated so far. -/
theorem productsLoop_step_stop (shop : Shop) (dom : String) (fuel : Nat)
    (cursor : Option String) (acc : List Product) (pc : Nat) (page : ProductsPage)
    (next : String) (hp : shop.pages cursor = .ok page)
    (hn : page.nextPageInfo = some next) (hlt : ¬ (pc + 1 < maxPages)) :
    productsLoop shop dom fuel cursor acc pc =
      (.ok (acc ++ page.products, pc + 1), [⟨Method.GET, productsURL dom cursor⟩]) := by
  conv_lhs => rw [productsLoop]
  cases fuel <;> simp [hp, hn, hlt]

/-- Loop step: page fetched, next cursor present, `pageCount` still below
`maxPages`: the loop continues on the next cursor. -/
theorem productsLoop_step_go (shop : Shop) (dom : String) (a : Nat)
    (cursor : Option String) (acc : List Product) (pc : Nat) (page : ProductsPage)
    (next : String) (hp : shop.pages cursor = .ok page)
    (hn : page.nextPageInfo = some next) (hlt : pc + 1 < maxPages) :
    productsLoop shop dom (a + 1) cursor acc pc =
      ((productsLoop shop dom a (some next) (acc ++ page.products) (pc + 1)).1,
       ⟨Method.GET, productsURL dom cursor⟩ ::
         (productsLoop shop dom a (some next) (acc ++ page.products) (pc + 1)).2) := by
  conv_lhs => rw [productsLoop]
  simp [hp, hn, hlt]

/-- Loop step at fuel 0 with the guard still true (never reached from
`getVariantBySKU`, which supplies `fuel = maxPages`): exits like the
guard-false branch. -/
theorem productsLoop_step_fuel0 (shop : Shop) (dom : String)
    (cursor : Option String) (acc : List Product) (pc : Nat) (page : ProductsPage)
    (next : String) (hp : shop.pages cursor = .ok page)
    (hn : page.nextPageInfo = some next) (hlt : pc + 1 < maxPages) :
    productsLoop shop dom 0 cursor acc pc =
      (.ok (acc ++ page.products, pc + 1), [⟨Method.GET, productsURL dom cursor⟩]) := by
  conv_lhs => rw [productsLoop]
  simp [hp, hn, hlt]

/-- The fuel parameter of `productsLoop` is inert for every caller that
supplies at least `maxPages - (pageCount + 1)` fuel: the source's own
`pageCount < maxPages` guard stops the loop first, so the embedding's
fuel never changes the result. -/
theorem productsLoop_fuel_irrelevant (shop : Shop) (dom : String) :
    ∀ (f₁ f₂ : Nat) (cursor : Option String) (acc : List Product) (pc : Nat),
      maxPages - (pc + 1) ≤ f₁ → maxPages - (pc + 1) ≤ f₂ →
      productsLoop shop dom f₁ cursor acc pc = productsLoop shop dom f₂ cursor acc pc := by
  intro f₁
  induction f₁ with
  | zero =>
    intro f₂ cursor acc pc h1 h2
    have hlt : ¬ (pc + 1 < maxPages) := by omega
    cases hp : shop.pages cursor with
    | error e =>
      rw [productsLoop_step_error shop dom 0 cursor acc pc e hp,
        productsLoop_step_error shop dom f₂ cursor acc pc e hp]
    | ok page =>
      cases hn : page.nextPageInfo with
      | none =>
        rw [productsLoop_step_last shop dom 0 cursor acc pc page hp hn,
          productsLoop_step_last shop dom f₂ cursor acc pc page hp hn]
      | some next =>
        rw [productsLoop_step_stop shop dom 0 cursor acc pc page next hp hn hlt,
          productsLoop_step_stop shop dom f₂ cursor acc pc page next hp hn hlt]
  | succ a IH =>
    intro f₂ cursor acc pc h1 h2
    cases hp : shop.pages cursor with
    | error e =>
      rw [productsLoop_step_error shop dom (a + 1) cursor acc pc e hp,
        productsLoop_step_error shop dom f₂ cursor acc pc e hp]
    | ok page =>
      cases hn : page.nextPageInfo with
      | none =>
        rw [productsLoop_step_last shop dom (a + 1) cursor acc pc page hp hn,
          productsLoop_step_last shop dom f₂ cursor acc pc page hp hn]
      | some next =>
        by_cases hlt : pc + 1 < maxPages
        · cases f₂ with
          | zero => omega
          | succ b =>
            have hrec := IH b (some next) (acc ++ page.products) (pc + 1)
              (by omega) (by omega)
            rw [productsLoop_step_go shop dom a cursor acc pc page next hp hn hlt,
              productsLoop_step_go shop dom b cursor acc pc page next hp hn hlt, hrec]
        · rw [productsLoop_step_stop shop dom (a + 1) cursor acc pc page next hp hn hlt,
            productsLoop_step_stop shop dom f₂ cursor acc pc page next hp hn hlt]

/-- Each loop iteration issues exactly one products request, and the loop
runs at most `maxPages - pageCount` more iterations once it has reached
`pageCount`. -/
theorem productsLoop_trace_length (shop : Shop) (dom : String) :
    ∀ (fuel : Nat) (cursor : Option String) (acc : List Product) (pc : Nat),
      pc < maxPages →
      ((productsLoop shop dom fuel cursor acc pc).2).length ≤ maxPages - pc := by
  intro fuel
  induction fuel with
  | zero =>
    intro cursor acc pc hpc
    cases hp : shop.pages cursor with
    | error e =>
      rw [productsLoop_step_error shop dom 0 cursor acc pc e hp]
      simp; omega
    | ok page =>
      cases hn : page.nextPageInfo with
      | none =>
        rw [productsLoop_step_last shop dom 0 cursor acc pc page hp hn]
        simp; omega
      | some next =>
        by_cases hlt : pc + 1 < maxPages
        · rw [productsLoop_step_fuel0 shop dom cursor acc pc page next hp hn hlt]
          simp; omega
        · rw [productsLoop_step_stop shop dom 0 cursor acc pc page next hp hn hlt]
          simp; omega
  | succ a IH =>
    intro cursor acc pc hpc
    cases hp : shop.pages cursor with
    | error e =>
      rw [productsLoop_step_error shop dom (a + 1) cursor acc pc e hp]
      simp; omega
    | ok page =>
      cases hn : page.nextPageInfo with
      | none =>
        rw [productsLoop_step_last shop dom (a + 1) cursor acc pc page hp hn]
        simp; omega
      | some next =>
        by_cases hlt : pc + 1 < maxPages
        · have hrec := IH (some next) (acc ++ page.products) (pc + 1) hlt
          rw [productsLoop_step_go shop dom a cursor acc pc page next hp hn hlt]
          simp only [List.length_cons]
          omega
        · rw [productsLoop_step_stop shop dom (a + 1) cursor acc pc page next hp hn hlt]
          simp; omega

/-- On a successful exit, the final `pageCount` never exceeds `maxPages`. -/
theorem productsLoop_pageCount_le (shop : Shop) (dom : String) :
    ∀ (fuel : Nat) (cursor : Option String) (acc : List Product) (pc : Nat)
      (ps : List Product) (k : Nat),
      pc < maxPages →
      (productsLoop shop dom fuel cursor acc pc).1 = .ok (ps, k) →
      k ≤ maxPages := by
  intro fuel
  induction fuel with
  | zero =>
    intro cursor acc pc ps k hpc hok
    cases hp : shop.pages cursor with
    | error e =>
      rw [productsLoop_step_error shop dom 0 cursor acc pc e hp] at hok
      simp at hok
    | ok page =>
      cases hn : page.nextPageInfo with
      | none =>
        rw [productsLoop_step_last shop dom 0 cursor acc pc page hp hn] at hok
        simp at hok
        omega
      | some next =>
        by_cases hlt : pc + 1 < maxPages
        · rw [productsLoop_step_fuel0 shop dom cursor acc pc page next hp hn hlt] at hok
          simp at hok
          omega
        · rw [productsLoop_step_stop shop dom 0 cursor acc pc page next hp hn hlt] at hok
          simp at hok
          omega
  | succ a IH =>
    intro cursor acc pc ps k hpc hok
    cases hp : shop.pages cursor with
    | error e =>
      rw [productsLoop_step_error shop dom (a + 1) cursor acc pc e hp] at hok
      simp at hok
    | ok page =>
      cases hn : page.nextPageInfo with
      | none =>
        rw [productsLoop_step_last shop dom (a + 1) cursor acc pc page hp hn] at hok
        simp at hok
        omega
      | some next =>
        by_cases hlt : pc + 1 < maxPages
        · rw [productsLoop_step_go shop dom a cursor acc pc page next hp hn hlt] at hok
          exact IH (some next) (acc ++ page.products) (pc + 1) ps k hlt hok
        · rw [productsLoop_step_stop shop dom (a + 1) cursor acc pc page next hp hn
            hlt] at hok
          simp at hok
          omega

/-- C5: the pagination loop of `getVariantBySKU` terminates for every
sequence of platform responses: at most `maxPages = 10` product pages are
ever fetched (one request per iteration, `pageCount` incremented each
time and required to stay below `maxPages`), regardless of whether the
platform keeps returning a next-page cursor; on a successful exit the
final `pageCount` is at most 10. -/
theorem getVariantBySKU_at_most_ten_fetches (shop : Shop) (dom sku : String) :
    ((getVariantBySKU shop dom sku).2).length ≤ 10 ∧
    ∀ ps k, (productsLoop shop dom maxPages none [] 0).1 = .ok (ps, k) →
      k ≤ 10 := by
  have hlen := productsLoop_trace_length shop dom maxPages none [] 0 (by decide)
  constructor
  · rcases hr : (productsLoop shop dom maxPages none [] 0).1 with e | ⟨ps, k⟩
    · simpa [getVariantBySKU, hr] using hlen
    · rcases hf : findVariantInProducts sku ps with _ | v <;>
        simpa [getVariantBySKU, hr, hf] using hlen
  · intro ps k hok
    exact productsLoop_pageCount_le shop dom maxPages none [] 0 ps k (by decide) hok

/-- The catalog's page chain: `Chain shop cursor pages` holds when
fetching from `cursor` and following each page's next-page cursor
enumerates exactly `pages`, ending at a page without a next cursor. This
is "every product page of the catalog" reachable from `cursor`. -/
inductive Chain (shop : Shop) : Option String → List ProductsPage → Prop
  | last (cursor : Option String) (page : ProductsPage)
      (hp : shop.pages cursor = .ok page) (hn : page.nextPageInfo = none) :
      Chain shop cursor [page]
  | more (cursor : Option String) (page : ProductsPage) (next : String)
      (rest : List ProductsPage)
      (hp : shop.pages cursor = .ok page) (hn : page.nextPageInfo = some next)
      (hrest : Chain shop (some next) rest) :
      Chain shop cursor (page :: rest)

/-- A page chain is never empty. -/
theorem Chain.length_pos {shop : Shop} {cursor : Option String}
    {ps : List ProductsPage} (h : Chain shop cursor ps) : 0 < ps.length := by
  cases h <;> simp

/-- Running the pagination loop along a page chain that fits in the page
budget accumulates exactly the chain's products, fetching every page of
the chain once. -/
theorem productsLoop_chain (shop : Shop) (dom : String) {cursor : Option String}
    {ps : List ProductsPage} (hch : Chain shop cursor ps) :
    ∀ (fuel : Nat) (acc : List Product) (pc : Nat),
      pc + ps.length ≤ maxPages → ps.length ≤ fuel + 1 →
      (productsLoop shop dom fuel cursor acc pc).1 =
        .ok (acc ++ ps.flatMap (fun p => p.products), pc + ps.length) ∧
      ((productsLoop shop dom fuel cursor acc pc).2).length = ps.length := by
  induction hch with
  | last cursor page hp hn =>
    intro fuel acc pc hb hf
    rw [productsLoop_step_last shop dom fuel cursor acc pc page hp hn]
    simp
  | more cursor page next rest hp hn hrest IH =>
    intro fuel acc pc hb hf
    have hrl : 0 < rest.length := hrest.length_pos
    rw [List.length_cons] at hb hf
    have hlt : pc + 1 < maxPages := by omega
    obtain ⟨a, rfl⟩ : ∃ a, fuel = a + 1 := by
      cases fuel with
      | zero => omega
      | succ a => exact ⟨a, rfl⟩
    have hIH := IH a (acc ++ page.products) (pc + 1) (by omega) (by omega)
    rw [productsLoop_step_go shop dom a cursor acc pc page next hp hn hlt]
    refine ⟨?_, ?_⟩
    · rw [hIH.1]
      simp only [List.flatMap_cons, List.append_assoc, List.length_cons]
      norm_num
      omega
    · simp only [List.length_cons, hIH.2]

/-- C4 (amended): `getVariantBySKU` accumulates every product of the page
chain and returns the first variant whose `sku` matches, or a not-found
result after searching all accumulated pages — provided the catalog's
page chain has at most `maxPages = 10` pages; every page of the chain is
fetched exactly once. (The unamended claim fails for longer catalogs, see
the counterexample below.) -/
theorem getVariantBySKU_full_scan (shop : Shop) (dom sku : String)
    (ps : List ProductsPage) (hch : Chain shop none ps) (hlen : ps.length ≤ 10) :
    (getVariantBySKU shop dom sku).1 =
      (match findVariantInProducts sku (ps.flatMap (fun p => p.products)) with
       | some v => .ok (.found v (ps.flatMap (fun p => p.products)).length)
       | none => .ok (.notFound (ps.flatMap (fun p => p.products)).length)) ∧
    ((getVariantBySKU shop dom sku).2).length = ps.length := by
  have h := productsLoop_chain shop dom hch maxPages [] 0
    (by simpa [maxPages] using hlen) (by simp only [maxPages]; omega)
  rw [List.nil_append] at h
  constructor
  · rcases hf : findVariantInProducts sku (ps.flatMap (fun p => p.products)) with _ | v <;>
      simp [getVariantBySKU, h.1, hf]
  · rcases hf : findVariantInProducts sku (ps.flatMap (fun p => p.products)) with _ | v <;>
      simp [getVariantBySKU, h.1, hf, h.2]

/-- Witness for the amended C4: on the demo shop's one-page catalog the
scan fetches exactly one page. -/
theorem getVariantBySKU_full_scan_witness :
    ((getVariantBySKU demoShop "shop.example" "CMXIN1M13").2).length = 1 ∧
    (getVariantBySKU demoShop "shop.example" "CMXIN1M13").1 =
      .ok (.found demoVariantA 1) :=
  ⟨(getVariantBySKU_full_scan demoShop "shop.example" "CMXIN1M13" [demoPage]
      (Chain.last none demoPage rfl rfl) (by decide)).2,
   by
    have h := (getVariantBySKU_full_scan demoShop "shop.example" "CMXIN1M13" [demoPage]
      (Chain.last none demoPage rfl rfl) (by decide)).1
    rw [h]
    decide⟩

/-- A variant living on the 11th page of a deep catalog. -/
def deepCatalogVariant : Variant := ⟨999, "DEEP1", some "shopify", 9999, none⟩

/-- An 11-page catalog: ten empty pages chained by cursors `c1`..`c10`,
then a final page containing `deepCatalogVariant`. -/
def deepShop : Shop where
  pages := fun cursor =>
    match cursor with
    | none => .ok ⟨[], some "c1"⟩
    | some "c1" => .ok ⟨[], some "c2"⟩
    | some "c2" => .ok ⟨[], some "c3"⟩
    | some "c3" => .ok ⟨[], some "c4"⟩
    | some "c4" => .ok ⟨[], some "c5"⟩
    | some "c5" => .ok ⟨[], some "c6"⟩
    | some "c6" => .ok ⟨[], some "c7"⟩
    | some "c7" => .ok ⟨[], some "c8"⟩
    | some "c8" => .ok ⟨[], some "c9"⟩
    | some "c9" => .ok ⟨[], some "c10"⟩
    | some "c10" => .ok ⟨[⟨5000, "Deep product", [deepCatalogVariant]⟩], none⟩
    | some _ => .error "unknown cursor"
  locationsResp := .ok []
  inventoryLevelsResp := fun _ _ => .error "unused"

/-- The full page chain of `deepShop` (11 pages). -/
def deepPages : List ProductsPage :=
  [⟨[], some "c1"⟩, ⟨[], some "c2"⟩, ⟨[], some "c3"⟩, ⟨[], some "c4"⟩,
   ⟨[], some "c5"⟩, ⟨[], some "c6"⟩, ⟨[], some "c7"⟩, ⟨[], some "c8"⟩,
   ⟨[], some "c9"⟩, ⟨[], some "c10"⟩,
   ⟨[⟨5000, "Deep product", [deepCatalogVariant]⟩], none⟩]

/-- C4 (counterexample): the claim as stated is false. On `deepShop` the
catalog's full page chain is `deepPages` and contains a variant with SKU
`DEEP1`, yet `getVariantBySKU` stops after `maxPages = 10` fetches while
the platform still reports a next-page cursor, and returns
`found: false` after searching 0 products — not after every product page
of the catalog has been searched. -/
theorem getVariantBySKU_misses_deep_catalog :
    Chain deepShop none deepPages ∧
    findVariantInProducts "DEEP1" (deepPages.flatMap (fun p => p.products)) =
      some deepCatalogVariant ∧
    (getVariantBySKU deepShop "shop.example" "DEEP1").1 = .ok (.notFound 0) := by
  refine ⟨?_, by decide, by decide⟩
  refine Chain.more _ _ "c1" _ rfl rfl ?_
  refine Chain.more _ _ "c2" _ rfl rfl ?_
  refine Chain.more _ _ "c3" _ rfl rfl ?_
  refine Chain.more _ _ "c4" _ rfl rfl ?_
  refine Chain.more _ _ "c5" _ rfl rfl ?_
  refine Chain.more _ _ "c6" _ rfl rfl ?_
  refine Chain.more _ _ "c7" _ rfl rfl ?_
  refine Chain.more _ _ "c8" _ rfl rfl ?_
  refine Chain.more _ _ "c9" _ rfl rfl ?_
  refine Chain.more _ _ "c10" _ rfl rfl ?_
  exact Chain.last _ _ rfl rfl

/-! ## Read-only trace lemmas -/

/-- Every request issued by the pagination loop is a `GET`. -/
theorem productsLoop_requests_GET (shop : Shop) (dom : String) :
    ∀ (fuel : Nat) (cursor : Option String) (acc : List Product) (pc : Nat)
      (r : Request), r ∈ (productsLoop shop dom fuel cursor acc pc).2 →
      r.method = Method.GET := by
  intro fuel
  induction fuel with
  | zero =>
    intro cursor acc pc r hr
    cases hp : shop.pages cursor with
    | error e =>
      rw [productsLoop_step_error shop dom 0 cursor acc pc e hp] at hr
      simp only [List.mem_singleton] at hr
      subst hr; rfl
    | ok page =>
      cases hn : page.nextPageInfo with
      | none =>
        rw [productsLoop_step_last shop dom 0 cursor acc pc page hp hn] at hr
        simp only [List.mem_singleton] at hr
        subst hr; rfl
      | some next =>
        by_cases hlt : pc + 1 < maxPages
        · rw [productsLoop_step_fuel0 shop dom cursor acc pc page next hp hn hlt] at hr
          simp only [List.mem_singleton] at hr
          subst hr; rfl
        · rw [productsLoop_step_stop shop dom 0 cursor acc pc page next hp hn hlt] at hr
          simp only [List.mem_singleton] at hr
          subst hr; rfl
  | succ a IH =>
    intro cursor acc pc r hr
    cases hp : shop.pages cursor with
    | error e =>
      rw [productsLoop_step_error shop dom (a + 1) cursor acc pc e hp] at hr
      simp only [List.mem_singleton] at hr
      subst hr; rfl
    | ok page =>
      cases hn : page.nextPageInfo with
      | none =>
        rw [productsLoop_step_last shop dom (a + 1) cursor acc pc page hp hn] at hr
        simp only [List.mem_singleton] at hr
        subst hr; rfl
      | some next =>
        by_cases hlt : pc + 1 < maxPages
        · rw [productsLoop_step_go shop dom a cursor acc pc page next hp hn hlt] at hr
          rcases List.mem_cons.mp hr with h | h
          · subst h; rfl
          · exact IH (some next) (acc ++ page.products) (pc + 1) r h
        · rw [productsLoop_step_stop shop dom (a + 1) cursor acc pc page next hp hn
            hlt] at hr
          simp only [List.mem_singleton] at hr
          subst hr; rfl

/-- Every request issued by `getVariantBySKU` is a `GET`. -/
theorem getVariantBySKU_requests_GET (shop : Shop) (dom sku : String) (r : Request)
    (hr : r ∈ (getVariantBySKU shop dom sku).2) : r.method = Method.GET := by
  have htr : (getVariantBySKU shop dom sku).2 =
      (productsLoop shop dom maxPages none [] 0).2 := by
    rcases h1 : (productsLoop shop dom maxPages none [] 0).1 with e | ⟨ps, k⟩
    · simp [getVariantBySKU, h1]
    · rcases hf : findVariantInProducts sku ps with _ | v <;>
        simp [getVariantBySKU, h1, hf]
  rw [htr] at hr
  exact productsLoop_requests_GET shop dom maxPages none [] 0 r hr

/-- Every request issued by `getInventoryLevel` is a `GET`. -/
theorem getInventoryLevel_requests_GET (shop : Shop) (dom : String) (itemId : Nat)
    (r : Request) (hr : r ∈ (getInventoryLevel shop dom itemId).2) :
    r.method = Method.GET := by
  rcases hl : shop.locationsResp with e | locs
  · simp only [getInventoryLevel, hl, List.mem_singleton] at hr
    subst hr; rfl
  · by_cases h0 : locs.length = 0
    · simp only [getInventoryLevel, hl, h0, if_pos, List.mem_singleton] at hr
      subst hr; rfl
    · rcases hlev : shop.inventoryLevelsResp itemId (joinLocationIds locs) with
        e | levels <;>
      · simp [getInventoryLevel, hl, h0, hlev] at hr
        rcases hr with rfl | rfl <;> rfl

/-- Every request issued while checking one line item is a `GET`. -/
theorem checkItem_requests_GET (shop : Shop) (dom : String) (item : LineItem)
    (r : Request) (hr : r ∈ (checkItem shop dom item).2) : r.method = Method.GET := by
  rcases hv : (getVariantBySKU shop dom item.sku).1 with e | vr
  · simp only [checkItem, hv] at hr
    exact getVariantBySKU_requests_GET shop dom item.sku r hr
  · rcases vr with ⟨v, n⟩ | n
    · by_cases hm : v.inventory_management ≠ some "shopify"
      · simp only [checkItem, hv] at hr
        rw [if_pos hm] at hr
        exact getVariantBySKU_requests_GET shop dom item.sku r hr
      · by_cases hs : (getInventoryLevel shop dom v.inventory_item_id).1.success = true <;>
        · simp only [checkItem, hv] at hr
          simp only [if_neg hm, hs] at hr
          simp only [Bool.false_eq_true, if_true, if_false, List.mem_append] at hr
          rcases hr with h | h
          · exact getVariantBySKU_requests_GET shop dom item.sku r h
          · exact getInventoryLevel_requests_GET shop dom v.inventory_item_id r h
    · simp only [checkItem, hv] at hr
      exact getVariantBySKU_requests_GET shop dom item.sku r hr

/-- C8: the system is read-only with respect to inventory. Every platform
request the handler issues — products pages, locations, inventory
levels — is a `GET`-style read; no request writes, reserves, or
decrements inventory state. -/
theorem handler_requests_read_only (shop : Shop) (dom : String)
    (props : List (String × String)) (r : Request)
    (hr : r ∈ (handlerPost shop dom props).2) : r.method = Method.GET := by
  by_cases h0 : (parsePropertiesToSKUs props).length = 0
  · simp [handlerPost, h0] at hr
  · by_cases h1 : (parsePropertiesToSKUs props).length = 1
    · simp [handlerPost, h0, h1] at hr
    · by_cases h2 : (parsePropertiesToSKUs props).length = 2
      · rw [handlerPost_two shop dom props h2] at hr
        by_cases hf :
            ((checkInventoryLevels shop dom (parsePropertiesToSKUs props)).1.filter
              (fun item => !item.available)).length = 0 <;>
        · simp only [hf, if_pos, if_neg, if_true, if_false] at hr
          simp only [checkInventoryLevels, List.mem_flatMap] at hr
          obtain ⟨item, _, hri⟩ := hr
          exact checkItem_requests_GET shop dom item r hri
      · simp [handlerPost, h0, h1, h2] at hr

/-- Witness for C8: a concrete request from the demo run is a `GET`. -/
theorem handler_requests_read_only_witness :
    (⟨Method.GET, productsURL "shop.example" none⟩ : Request).method = Method.GET :=
  handler_requests_read_only demoShop "shop.example" demoProps
    ⟨Method.GET, productsURL "shop.example" none⟩ (by decide)

/-- Witness for C5 on the demo shop: the single-page catalog is fetched
with one request, and the concrete loop exit instantiates the
`pageCount` bound. -/
theorem getVariantBySKU_at_most_ten_fetches_witness :
    ((getVariantBySKU demoShop "shop.example" "CMXIN1M13").2).length ≤ 10 ∧
    (1 : Nat) ≤ 10 :=
  ⟨(getVariantBySKU_at_most_ten_fetches demoShop "shop.example" "CMXIN1M13").1,
   (getVariantBySKU_at_most_ten_fetches demoShop "shop.example" "CMXIN1M13").2
     demoPage.products 1 (by decide)⟩
